import Mathlib

/-!
Verification of the certificate and key-material utilities of
`lemur/common/utils.py` (the lemur project).

The Python module relies on the external `cryptography` library for the
actual cryptographic primitives (PEM decoding, RSA/ECDSA signature
verification, SHA-256 fingerprints).  Those primitives are modelled here at
their interface, in the ideal-cryptography style: a signature verifies under
a public key and scheme exactly when it was produced over the same bytes by
the private counterpart of that key for that scheme, PEM text either decodes
to a certificate object or raises, and the fingerprint digest is an
injective function of the certificate's encoded form.  Everything the Python
module itself does (branching, dispatch, error raising, list building) is
translated directly from the source.
-/

set_option maxRecDepth 4000

deriving instance DecidableEq for Except

namespace Lemur

/-- Signature algorithm OIDs as compared by the source: the only OID the
code tests for is `x509.SignatureAlgorithmOID.RSASSA_PSS`; every other OID
is collapsed into `other` carrying an arbitrary code. -/
inductive SigAlgOID where
  | RSASSA_PSS : SigAlgOID
  | other : Nat → SigAlgOID
deriving DecidableEq, Repr

/-- The certificate's `signature_hash_algorithm` attribute.  The source
tests it with `isinstance(_, ec.ECDSA)`, so the model distinguishes a plain
hash-algorithm descriptor (`hashAlg`, e.g. a SHA-256 instance) from an
ECDSA-typed descriptor (`ecdsa`); the `Nat` codes which underlying hash. -/
inductive SigHashAlg where
  | hashAlg : Nat → SigHashAlg
  | ecdsa : Nat → SigHashAlg
deriving DecidableEq, Repr

/-- A public key as dispatched on by `check_cert_signature`:
`isinstance(k, rsa.RSAPublicKey)`, `isinstance(k, ec.EllipticCurvePublicKey)`,
or anything else (DSA, Ed25519, ...).  The `Nat` identifies the underlying
key pair in the ideal-cryptography model. -/
inductive PublicKey where
  | rsa : Nat → PublicKey
  | ec : Nat → PublicKey
  | otherKey : Nat → PublicKey
deriving DecidableEq, Repr

/-- A signature scheme: PKCS#1 v1.5 RSA with a hash descriptor, or ECDSA
with a hash descriptor (the source passes `cert.signature_hash_algorithm`
through in both cases). -/
inductive SigScheme where
  | rsaPkcs1 : SigHashAlg → SigScheme
  | ecdsaScheme : SigHashAlg → SigScheme
deriving DecidableEq, Repr

/-- Injective numeric code of a hash descriptor. -/
def sigHashCode : SigHashAlg → Nat
  | .hashAlg n => 2 * n
  | .ecdsa n => 2 * n + 1

/-- Injective numeric code of a signature scheme. -/
def schemeCode : SigScheme → Nat
  | .rsaPkcs1 h => 2 * sigHashCode h
  | .ecdsaScheme h => 2 * sigHashCode h + 1

/-- Ideal-cryptography model of signing: the signature produced by the
private counterpart of key `keyId` under `scheme` over the bytes `tbs`.
Verification in the model compares a presented signature against this
value, which is what makes signatures unforgeable and key-specific. -/
def mkSignature (keyId : Nat) (scheme : SigScheme) (tbs : List Nat) : List Nat :=
  keyId :: schemeCode scheme :: tbs

/-- The `value` of an `x509.AuthorityKeyIdentifier` extension: its
`key_identifier` field is optional (the extension may carry only the
issuer/serial fields, in which case the field is Python `None`). -/
structure AuthorityKeyIdentifier where
  key_identifier : Option (List Nat)
deriving DecidableEq, Repr

/-- A parsed X.509 certificate, with exactly the attributes the source
reads: `tbs_certificate_bytes`, `signature`, `signature_algorithm_oid`,
`signature_hash_algorithm`, `public_key()`, the optional
AuthorityKeyIdentifier extension, and the encoded form `der` that the
fingerprint digests. -/
structure Certificate where
  tbs_certificate_bytes : List Nat
  signature : List Nat
  signature_algorithm_oid : SigAlgOID
  signature_hash_algorithm : SigHashAlg
  public_key : PublicKey
  akiExt : Option AuthorityKeyIdentifier
  der : List Nat
deriving DecidableEq, Repr

/-- The hash algorithms passed to `Certificate.fingerprint`; the source only
ever passes `hashes.SHA256()`. -/
inductive HashAlgo where
  | SHA256 : HashAlgo
deriving DecidableEq, Repr

/-- Ideal model of the SHA-256 digest over the certificate's encoded form:
an injective function of the input bytes (collision-freeness is the spec's
content-addressing assumption). -/
def sha256digest (bytes : List Nat) : List Nat :=
  bytes.length :: bytes

/-- `cert.fingerprint(hashes.SHA256())`. -/
def Certificate.fingerprint (cert : Certificate) (h : HashAlgo) : List Nat :=
  match h with
  | .SHA256 => sha256digest cert.der

/-- PEM certificate text, modelled at the decoder interface: a body either
decodes to a certificate object or is malformed (the raw tag only
distinguishes distinct malformed inputs). -/
inductive PEMBody where
  | valid : Certificate → PEMBody
  | malformed : Nat → PEMBody
deriving DecidableEq, Repr

/-- `parse_certificate(body)`: `x509.load_pem_x509_certificate` modelled at
its interface — returns the decoded certificate, or raises `ValueError`
(carried as the `Except.error` message) on malformed input. -/
def parse_certificate : PEMBody → Except String Certificate
  | .valid cert => .ok cert
  | .malformed n => .error ("Unable to load PEM file " ++ toString n)

/-- The exceptions `check_cert_signature` can raise:
`cryptography.exceptions.InvalidSignature` and
`cryptography.exceptions.UnsupportedAlgorithm` (with its message). -/
inductive SigError where
  | InvalidSignature : SigError
  | UnsupportedAlgorithm : String → SigError
deriving DecidableEq, Repr

/-- `check_cert_signature(cert, issuer_public_key)`.

Source:
```
if isinstance(issuer_public_key, rsa.RSAPublicKey):
    if cert.signature_algorithm_oid == x509.SignatureAlgorithmOID.RSASSA_PSS:
        raise UnsupportedAlgorithm("RSASSA-PSS not supported")
    else:
        padder = padding.PKCS1v15()
    issuer_public_key.verify(cert.signature, cert.tbs_certificate_bytes,
                             padder, cert.signature_hash_algorithm)
elif isinstance(issuer_public_key, ec.EllipticCurvePublicKey) and \
        isinstance(cert.signature_hash_algorithm, ec.ECDSA):
    issuer_public_key.verify(cert.signature, cert.tbs_certificate_bytes,
                             cert.signature_hash_algorithm)
else:
    raise InvalidSignature
```
The two `verify` calls are the library's, modelled ideally: they succeed
exactly when the presented signature equals the one the matching private
key would produce for that scheme over the TBS bytes, and raise
`InvalidSignature` otherwise. -/
def check_cert_signature (cert : Certificate) (issuer_public_key : PublicKey) :
    Except SigError Unit :=
  match issuer_public_key with
  | .rsa keyId =>
    if cert.signature_algorithm_oid = .RSASSA_PSS then
      .error (.UnsupportedAlgorithm "RSASSA-PSS not supported")
    else
      if cert.signature =
          mkSignature keyId (.rsaPkcs1 cert.signature_hash_algorithm)
            cert.tbs_certificate_bytes then
        .ok ()
      else
        .error .InvalidSignature
  | .ec keyId =>
    match cert.signature_hash_algorithm with
    | .ecdsa h =>
      if cert.signature =
          mkSignature keyId (.ecdsaScheme (.ecdsa h))
            cert.tbs_certificate_bytes then
        .ok ()
      else
        .error .InvalidSignature
    | .hashAlg _ => .error .InvalidSignature
  | .otherKey _ => .error .InvalidSignature

/-- The named elliptic curves of the `cryptography` library that the
source's `_CURVE_TYPES` table can produce. -/
inductive ECCurve where
  | SECP192R1 | SECP224R1 | SECP256R1 | SECP384R1 | SECP521R1 | SECP256K1
  | SECT163K1 | SECT233K1 | SECT283K1 | SECT409K1 | SECT571K1
  | SECT163R2 | SECT233R1 | SECT283R1 | SECT409R1 | SECT571R1
deriving DecidableEq, Repr

/-- A generated private key, carrying exactly the attributes the generation
calls fix: `rsa.generate_private_key(public_exponent, key_size)` or
`ec.generate_private_key(curve)`. -/
inductive PrivateKey where
  | rsa : (public_exponent : Nat) → (key_size : Nat) → PrivateKey
  | ec : (curve : ECCurve) → PrivateKey
deriving DecidableEq, Repr

/-- Modelled from the spec: `CERTIFICATE_KEY_TYPES` from `lemur.constants`
(the module is not part of the analysed sources).  The spec's §4.2/§6
closed catalog, which the source's own docstring lists verbatim: the two
RSA size tags and the eighteen named-curve tags. -/
def CERTIFICATE_KEY_TYPES : List String :=
  ["RSA2048", "RSA4096",
   "ECCPRIME192V1", "ECCPRIME256V1",
   "ECCSECP192R1", "ECCSECP224R1", "ECCSECP256R1", "ECCSECP384R1",
   "ECCSECP521R1", "ECCSECP256K1",
   "ECCSECT163K1", "ECCSECT233K1", "ECCSECT283K1", "ECCSECT409K1",
   "ECCSECT571K1",
   "ECCSECT163R2", "ECCSECT233R1", "ECCSECT283R1", "ECCSECT409R1",
   "ECCSECT571R2"]

/-- The source's `_CURVE_TYPES` dict, in source order.  Note the last
entry: the legacy tag `"ECCSECT571R2"` maps to `ec.SECT571R1()`. -/
def CURVE_TYPES : List (String × ECCurve) :=
  [("ECCPRIME192V1", .SECP192R1),
   ("ECCPRIME256V1", .SECP256R1),
   ("ECCSECP192R1", .SECP192R1),
   ("ECCSECP224R1", .SECP224R1),
   ("ECCSECP256R1", .SECP256R1),
   ("ECCSECP384R1", .SECP384R1),
   ("ECCSECP521R1", .SECP521R1),
   ("ECCSECP256K1", .SECP256K1),
   ("ECCSECT163K1", .SECT163K1),
   ("ECCSECT233K1", .SECT233K1),
   ("ECCSECT283K1", .SECT283K1),
   ("ECCSECT409K1", .SECT409K1),
   ("ECCSECT571K1", .SECT571K1),
   ("ECCSECT163R2", .SECT163R2),
   ("ECCSECT233R1", .SECT233R1),
   ("ECCSECT283R1", .SECT283R1),
   ("ECCSECT409R1", .SECT409R1),
   ("ECCSECT571R2", .SECT571R1)]

/-- `startsWithL pat s`: the character list `pat` occurs at the head of
`s` (helper for Python's substring test). -/
def startsWithL : List Char → List Char → Bool
  | [], _ => true
  | _ :: _, [] => false
  | p :: ps, c :: cs => p == c && startsWithL ps cs

/-- `hasSubL pat s`: `pat` occurs contiguously somewhere in `s`. -/
def hasSubL (pat : List Char) : List Char → Bool
  | [] => pat.isEmpty
  | c :: cs => startsWithL pat (c :: cs) || hasSubL pat cs

/-- Python's `pat in s` substring test on strings. -/
def hasSub (s pat : String) : Bool :=
  hasSubL pat.data s.data

/-- The decimal value of a digit character, `none` for non-digits. -/
def digitVal? (c : Char) : Option Nat :=
  if 48 ≤ c.toNat ∧ c.toNat ≤ 57 then some (c.toNat - 48) else none

/-- Accumulator pass of decimal parsing. -/
def decimalAux : List Char → Nat → Option Nat
  | [], acc => some acc
  | c :: cs, acc =>
    match digitVal? c with
    | some d => decimalAux cs (acc * 10 + d)
    | none => none

/-- Python's `int(s)` as applied to the identifier suffixes: parses a
nonempty string of decimal digits, `none` (a `ValueError`) otherwise.
(Python's `int` also tolerates signs and whitespace, which cannot occur in
catalog identifiers.) -/
def strToNat? (s : String) : Option Nat :=
  match s.data with
  | [] => none
  | cs => decimalAux cs 0

/-- Python's `s[3:]` slice. -/
def dropStr3 (s : String) : String :=
  String.mk (s.data.drop 3)

/-- `generate_private_key(key_type)`.

Source:
```
if key_type not in CERTIFICATE_KEY_TYPES:
    raise Exception("Invalid key type: {key_type}. Supported key types: {choices}"
                    .format(key_type=key_type, choices=",".join(CERTIFICATE_KEY_TYPES)))
if 'RSA' in key_type:
    key_size = int(key_type[3:])
    return rsa.generate_private_key(public_exponent=65537, key_size=key_size, ...)
elif 'ECC' in key_type:
    return ec.generate_private_key(curve=_CURVE_TYPES[key_type], ...)
```
The function body has no final `else`: Python falls through and returns
`None`, modelled as `.ok none`.  `int(key_type[3:])` raising `ValueError`
on a non-numeric suffix and `_CURVE_TYPES[key_type]` raising `KeyError` on
a missing key are the remaining `.error` cases. -/
def generate_private_key (key_type : String) :
    Except String (Option PrivateKey) :=
  if key_type ∈ CERTIFICATE_KEY_TYPES then
    if hasSub key_type "RSA" then
      match strToNat? (dropStr3 key_type) with
      | some key_size => .ok (some (.rsa 65537 key_size))
      | none => .error ("ValueError: invalid literal for int: " ++ dropStr3 key_type)
    else if hasSub key_type "ECC" then
      match List.lookup key_type CURVE_TYPES with
      | some curve => .ok (some (.ec curve))
      | none => .error ("KeyError: " ++ key_type)
    else
      .ok none
  else
    .error ("Invalid key type: " ++ key_type ++ ". Supported key types: " ++
      String.intercalate "," CERTIFICATE_KEY_TYPES)

/-- The lowercase hexadecimal digits, in value order. -/
def hexLowerChars : List Char :=
  "0123456789abcdef".data

/-- The lowercase hex digit of a value below 16. -/
def hexDigitChar (n : Nat) : Char :=
  hexLowerChars.getD n 'x'

/-- The two lowercase hex digits of one byte, high digit first. -/
def byteHexChars (b : Nat) : List Char :=
  [hexDigitChar (b / 16 % 16), hexDigitChar (b % 16)]

/-- Python's `bytes.hex()`: the lowercase hex string of a byte sequence. -/
def bytesHex (bytes : List Nat) : String :=
  String.mk (bytes.map byteHexChars).flatten

/-- The exceptions `get_authority_key` can let escape: the decoder's
`ValueError` (the spec's ParseError), the `x509.ExtensionNotFound` raised
by `get_extension_for_class` (the spec's ExtensionNotFoundError), and the
`AttributeError` raised by `None.hex()`. -/
inductive UtilError where
  | parseError : String → UtilError
  | extensionNotFound : UtilError
  | attributeError : String → UtilError
deriving DecidableEq, Repr

/-- `get_authority_key(body)`.

Source:
```
parsed_cert = parse_certificate(body)
authority_key = parsed_cert.extensions.get_extension_for_class(
    x509.AuthorityKeyIdentifier).value.key_identifier
return authority_key.hex()
```
`get_extension_for_class` raises `ExtensionNotFound` when the extension is
absent; when the extension is present with a `None` key identifier,
`authority_key.hex()` raises `AttributeError`. -/
def get_authority_key (body : PEMBody) : Except UtilError String :=
  match parse_certificate body with
  | .error msg => .error (.parseError msg)
  | .ok parsed_cert =>
    match parsed_cert.akiExt with
    | none => .error .extensionNotFound
    | some v =>
      match v.key_identifier with
      | none => .error (.attributeError "NoneType object has no attribute hex")
      | some authority_key => .ok (bytesHex authority_key)

/-- A Lemur-formatted stored certificate record, as consumed by
`find_matching_certificates_by_hash`: opaque beyond its `body` PEM field
(`recId` only distinguishes distinct records with equal bodies). -/
structure CertRecord where
  recId : Nat
  body : PEMBody
deriving DecidableEq, Repr

/-- The per-candidate comparison of the scan: the candidate's body parses
and its SHA-256 fingerprint equals `cert`'s (false when it fails to
parse). -/
def matchesHash (cert : Certificate) (c : CertRecord) : Bool :=
  match parse_certificate c.body with
  | .ok pc => pc.fingerprint .SHA256 == cert.fingerprint .SHA256
  | .error _ => false

/-- `find_matching_certificates_by_hash(cert, matching_certs)`.

Source:
```
matching = []
for c in matching_certs:
    if parse_certificate(c.body).fingerprint(hashes.SHA256()) == \
            cert.fingerprint(hashes.SHA256()):
        matching.append(c)
return matching
```
The loop body calls `parse_certificate` with no exception handling, so the
first candidate whose body fails to parse raises out of the whole function
(the `Except.error` case). -/
def find_matching_certificates_by_hash (cert : Certificate) :
    List CertRecord → Except String (List CertRecord)
  | [] => .ok []
  | c :: rest =>
    match parse_certificate c.body with
    | .error e => .error e
    | .ok pc =>
      match find_matching_certificates_by_hash cert rest with
      | .error e => .error e
      | .ok tail =>
        if pc.fingerprint .SHA256 == cert.fingerprint .SHA256 then
          .ok (c :: tail)
        else
          .ok tail

/-- `is_selfsigned(cert)`.

Source:
```
try:
    check_cert_signature(cert, cert.public_key())
    return True
except InvalidSignature:
    return False
except UnsupportedAlgorithm as e:
    raise Exception(e)
```
The re-raised generic `Exception` is the `Except.error` case (carrying the
wrapped message), distinct in type from the `SigError` exceptions it
escalates. -/
def is_selfsigned (cert : Certificate) : Except String Bool :=
  match check_cert_signature cert cert.public_key with
  | .ok () => .ok true
  | .error .InvalidSignature => .ok false
  | .error (.UnsupportedAlgorithm e) => .error e

/-- "Signed with its own private key under a supported scheme": the
certificate's signature was produced by the private counterpart of its own
public key, under non-PSS PKCS#1 v1.5 RSA with a plain hash descriptor, or
under ECDSA with an ECDSA-typed descriptor. -/
def selfSignedSupported (cert : Certificate) : Prop :=
  (∃ keyId h, cert.public_key = .rsa keyId ∧
    cert.signature_algorithm_oid ≠ .RSASSA_PSS ∧
    cert.signature_hash_algorithm = .hashAlg h ∧
    cert.signature =
      mkSignature keyId (.rsaPkcs1 (.hashAlg h)) cert.tbs_certificate_bytes) ∨
  (∃ keyId h, cert.public_key = .ec keyId ∧
    cert.signature_hash_algorithm = .ecdsa h ∧
    cert.signature =
      mkSignature keyId (.ecdsaScheme (.ecdsa h)) cert.tbs_certificate_bytes)

/-- "Signed by a different authority's key under a supported scheme": the
certificate's signature was produced by the key pair `otherKeyId`, distinct
from the certificate's own key pair, of the same family and under the same
supported scheme shape as in `selfSignedSupported`. -/
def signedByOtherAuthority (cert : Certificate) (otherKeyId : Nat) : Prop :=
  (∃ keyId h, cert.public_key = .rsa keyId ∧ otherKeyId ≠ keyId ∧
    cert.signature_algorithm_oid ≠ .RSASSA_PSS ∧
    cert.signature_hash_algorithm = .hashAlg h ∧
    cert.signature =
      mkSignature otherKeyId (.rsaPkcs1 (.hashAlg h)) cert.tbs_certificate_bytes) ∨
  (∃ keyId h, cert.public_key = .ec keyId ∧ otherKeyId ≠ keyId ∧
    cert.signature_hash_algorithm = .ecdsa h ∧
    cert.signature =
      mkSignature otherKeyId (.ecdsaScheme (.ecdsa h)) cert.tbs_certificate_bytes)

/-- Spec-side expectation for `generate_private_key`, written from the
spec's words (§4.2): an RSA-family identifier yields an RSA key of the
bit-size embedded in the identifier's suffix with public exponent 65537;
a named-curve identifier yields a key on the curve of the static table,
the legacy alias `ECCSECT571R2` intentionally on the R571 curve.  `none`
for identifiers outside the catalog. -/
def specKeyFor : String → Option PrivateKey
  | "RSA2048" => some (.rsa 65537 2048)
  | "RSA4096" => some (.rsa 65537 4096)
  | "ECCPRIME192V1" => some (.ec .SECP192R1)
  | "ECCPRIME256V1" => some (.ec .SECP256R1)
  | "ECCSECP192R1" => some (.ec .SECP192R1)
  | "ECCSECP224R1" => some (.ec .SECP224R1)
  | "ECCSECP256R1" => some (.ec .SECP256R1)
  | "ECCSECP384R1" => some (.ec .SECP384R1)
  | "ECCSECP521R1" => some (.ec .SECP521R1)
  | "ECCSECP256K1" => some (.ec .SECP256K1)
  | "ECCSECT163K1" => some (.ec .SECT163K1)
  | "ECCSECT233K1" => some (.ec .SECT233K1)
  | "ECCSECT283K1" => some (.ec .SECT283K1)
  | "ECCSECT409K1" => some (.ec .SECT409K1)
  | "ECCSECT571K1" => some (.ec .SECT571K1)
  | "ECCSECT163R2" => some (.ec .SECT163R2)
  | "ECCSECT233R1" => some (.ec .SECT233R1)
  | "ECCSECT283R1" => some (.ec .SECT283R1)
  | "ECCSECT409R1" => some (.ec .SECT409R1)
  | "ECCSECT571R2" => some (.ec .SECT571R1)
  | _ => none

/-- A sample RSA certificate, self-signed by key pair 1 under PKCS#1 v1.5
with hash descriptor 0. -/
def certA : Certificate :=
  { tbs_certificate_bytes := [0, 1],
    signature := mkSignature 1 (.rsaPkcs1 (.hashAlg 0)) [0, 1],
    signature_algorithm_oid := .other 5,
    signature_hash_algorithm := .hashAlg 0,
    public_key := .rsa 1,
    akiExt := none,
    der := [9] }

/-- `certA` re-signed by the foreign RSA key pair 2. -/
def certB : Certificate :=
  { certA with signature := mkSignature 2 (.rsaPkcs1 (.hashAlg 0)) [0, 1] }

/-- `certA` whose declared signature algorithm OID is RSASSA-PSS (its
signature bytes are still the ones key pair 1 would produce). -/
def certPSS : Certificate :=
  { certA with signature_algorithm_oid := .RSASSA_PSS }

/-- A sample EC certificate, self-signed by key pair 1 under ECDSA. -/
def certEC : Certificate :=
  { tbs_certificate_bytes := [0, 1],
    signature := mkSignature 1 (.ecdsaScheme (.ecdsa 0)) [0, 1],
    signature_algorithm_oid := .other 7,
    signature_hash_algorithm := .ecdsa 0,
    public_key := .ec 1,
    akiExt := none,
    der := [7] }

/-- A stored record whose body decodes to `certA` (so its fingerprint
matches `certA`). -/
def recGood : CertRecord :=
  { recId := 0, body := .valid certA }

/-- A stored record with a malformed PEM body. -/
def recBad : CertRecord :=
  { recId := 1, body := .malformed 3 }

/-- A stored record whose body decodes to a certificate with a different
encoded form, hence a different fingerprint than `certA`. -/
def recOther : CertRecord :=
  { recId := 2, body := .valid { certA with der := [8] } }

/-- A candidate record whose stored PEM body decodes successfully. -/
def parsesOk (c : CertRecord) : Bool :=
  match parse_certificate c.body with
  | .ok _ => true
  | .error _ => false

/-- `certA` with an AuthorityKeyIdentifier extension whose key identifier
is the byte string de:ad. -/
def certAKI : Certificate :=
  { certA with akiExt := some ⟨some [222, 173]⟩ }

/-- `certA` with an AuthorityKeyIdentifier extension present but whose
key-identifier field is null. -/
def certAKInull : Certificate :=
  { certA with akiExt := some ⟨none⟩ }

end Lemur

namespace Lemur

/-- C1: a certificate signed with its own private key under a supported
scheme (non-PSS RSA or ECDSA) is classified self-signed (`is_selfsigned`
returns true); a certificate signed by a different authority's key under
such a scheme is classified not self-signed (returns false). -/
theorem is_selfsigned_classifies (cert : Certificate) :
    (selfSignedSupported cert → is_selfsigned cert = .ok true) ∧
    (∀ otherKeyId, signedByOtherAuthority cert otherKeyId →
      is_selfsigned cert = .ok false) := by
  constructor
  · intro hss
    rcases hss with ⟨keyId, h, hpk, hoid, hsha, hsig⟩ | ⟨keyId, h, hpk, hsha, hsig⟩
    · simp [is_selfsigned, check_cert_signature, hpk, hoid, hsha, hsig]
    · simp [is_selfsigned, check_cert_signature, hpk, hsha, hsig]
  · rintro k (⟨keyId, h, hpk, hne, hoid, hsha, hsig⟩ | ⟨keyId, h, hpk, hne, hsha, hsig⟩)
    · simp [is_selfsigned, check_cert_signature, hpk, hoid, hsha, hsig,
        mkSignature, hne]
    · simp [is_selfsigned, check_cert_signature, hpk, hsha, hsig,
        mkSignature, hne]

/-- Witness for C1: the sample RSA and EC self-signed certificates are
classified true; the sample certificate signed by the foreign key pair 2 is
classified false. -/
theorem is_selfsigned_classifies_witness :
    is_selfsigned certA = .ok true ∧
    is_selfsigned certEC = .ok true ∧
    is_selfsigned certB = .ok false :=
  ⟨(is_selfsigned_classifies certA).1
      (Or.inl ⟨1, 0, rfl, by decide, rfl, rfl⟩),
   (is_selfsigned_classifies certEC).1
      (Or.inr ⟨1, 0, rfl, rfl, rfl⟩),
   (is_selfsigned_classifies certB).2 2
      (Or.inl ⟨1, 0, rfl, by decide, by decide, rfl, rfl⟩)⟩

/-- C2: when the certificate's declared signature algorithm OID is
RSASSA-PSS, `check_cert_signature` with an RSA public key fails with
`UnsupportedAlgorithm` for every certificate — in particular regardless of
the signature bytes, so no cryptographic verification is attempted. -/
theorem check_cert_signature_pss_unsupported (cert : Certificate) (keyId : Nat)
    (hpss : cert.signature_algorithm_oid = .RSASSA_PSS) :
    check_cert_signature cert (.rsa keyId) =
      .error (.UnsupportedAlgorithm "RSASSA-PSS not supported") := by
  simp [check_cert_signature, hpss]

/-- Witness for C2: `certPSS` declares RSASSA-PSS while carrying exactly
the signature key pair 1 would produce (a cryptographically valid
signature), yet verification fails with `UnsupportedAlgorithm`. -/
theorem check_cert_signature_pss_unsupported_witness :
    certPSS.signature_algorithm_oid = .RSASSA_PSS ∧
    certPSS.signature =
      mkSignature 1 (.rsaPkcs1 certPSS.signature_hash_algorithm)
        certPSS.tbs_certificate_bytes ∧
    check_cert_signature certPSS (.rsa 1) =
      .error (.UnsupportedAlgorithm "RSASSA-PSS not supported") :=
  ⟨rfl, rfl, check_cert_signature_pss_unsupported certPSS 1 rfl⟩

/-- C3: `is_selfsigned` returns false exactly when the verifier fails with
`InvalidSignature`, and when the verifier fails with
`UnsupportedAlgorithm` it escalates a generic error (the `Except.error`
case of `is_selfsigned`, of a different type than the verifier's
exceptions) instead of returning false. -/
theorem is_selfsigned_error_discipline (cert : Certificate) :
    (is_selfsigned cert = .ok false ↔
      check_cert_signature cert cert.public_key = .error .InvalidSignature) ∧
    (∀ msg,
      check_cert_signature cert cert.public_key =
        .error (.UnsupportedAlgorithm msg) →
      is_selfsigned cert = .error msg) := by
  cases hc : check_cert_signature cert cert.public_key with
  | ok u =>
    cases u
    exact ⟨by simp [is_selfsigned, hc], fun msg hm => by simp [hc] at hm⟩
  | error e =>
    cases e with
    | InvalidSignature =>
      exact ⟨by simp [is_selfsigned, hc], fun msg hm => by simp [hc] at hm⟩
    | UnsupportedAlgorithm m =>
      refine ⟨by simp [is_selfsigned, hc], fun msg hm => ?_⟩
      simp [hc] at hm
      subst hm
      simp [is_selfsigned, hc]

/-- Witness for C3: on `certPSS` the verifier fails with
`UnsupportedAlgorithm`, and `is_selfsigned` escalates the generic error;
the false-iff-InvalidSignature equivalence instantiated at `certB`. -/
theorem is_selfsigned_error_discipline_witness :
    is_selfsigned certPSS = .error "RSASSA-PSS not supported" ∧
    (is_selfsigned certB = .ok false ↔
      check_cert_signature certB certB.public_key = .error .InvalidSignature) :=
  ⟨(is_selfsigned_error_discipline certPSS).2 "RSASSA-PSS not supported" rfl,
   (is_selfsigned_error_discipline certB).1⟩

/-- C4: when the issuer public key is neither RSA nor elliptic-curve, or
is elliptic-curve while the certificate's signature hash algorithm is not
an ECDSA-typed descriptor, `check_cert_signature` fails with
`InvalidSignature` (the check is never silently skipped). -/
theorem check_cert_signature_mismatch_invalid (cert : Certificate)
    (key : PublicKey)
    (hmis : (∃ n, key = .otherKey n) ∨
      (∃ n, key = .ec n ∧ ∀ h, cert.signature_hash_algorithm ≠ .ecdsa h)) :
    check_cert_signature cert key = .error .InvalidSignature := by
  rcases hmis with ⟨n, rfl⟩ | ⟨n, rfl, hnot⟩
  · rfl
  · cases hsha : cert.signature_hash_algorithm with
    | ecdsa h => exact absurd hsha (hnot h)
    | hashAlg m => simp [check_cert_signature, hsha]

/-- Witness for C4: a non-RSA non-EC key on `certA`, and an EC key on the
plain-hash-descriptor `certA`, both fail with `InvalidSignature`. -/
theorem check_cert_signature_mismatch_invalid_witness :
    check_cert_signature certA (.otherKey 0) = .error .InvalidSignature ∧
    check_cert_signature certA (.ec 5) = .error .InvalidSignature :=
  ⟨check_cert_signature_mismatch_invalid certA (.otherKey 0) (Or.inl ⟨0, rfl⟩),
   check_cert_signature_mismatch_invalid certA (.ec 5)
     (Or.inr ⟨5, rfl, by intro h hcon; simp [certA] at hcon⟩)⟩

end Lemur

namespace Lemur

/-- C5: every identifier in the catalog yields a key matching the spec-side
expectation (RSA family: bit-size from the identifier suffix and public
exponent 65537; EC family: the curve of the static table, the legacy alias
`ECCSECT571R2` on the R571 curve); every identifier outside the catalog
fails with the invalid-key-type error whose message lists the full catalog,
with no key produced. -/
theorem generate_private_key_catalog (kt : String) :
    (kt ∈ CERTIFICATE_KEY_TYPES →
      generate_private_key kt = .ok (specKeyFor kt) ∧
      (specKeyFor kt).isSome = true) ∧
    (kt ∉ CERTIFICATE_KEY_TYPES →
      generate_private_key kt =
        .error ("Invalid key type: " ++ kt ++ ". Supported key types: " ++
          String.intercalate "," CERTIFICATE_KEY_TYPES)) ∧
    (∀ c ∈ CERTIFICATE_KEY_TYPES,
      hasSub (String.intercalate "," CERTIFICATE_KEY_TYPES) c = true) := by
  refine ⟨?_, ?_, ?_⟩
  · intro hmem
    fin_cases hmem <;> exact ⟨by decide, by decide⟩
  · intro hnot
    unfold generate_private_key
    rw [if_neg hnot]
  · decide

/-- Witness for C5: the catalog member "RSA2048" yields the expected RSA
key, and the non-member "BOGUS" yields the invalid-key-type error. -/
theorem generate_private_key_catalog_witness :
    (generate_private_key "RSA2048" = .ok (specKeyFor "RSA2048") ∧
      (specKeyFor "RSA2048").isSome = true) ∧
    generate_private_key "BOGUS" =
      .error ("Invalid key type: " ++ "BOGUS" ++ ". Supported key types: " ++
        String.intercalate "," CERTIFICATE_KEY_TYPES) :=
  ⟨(generate_private_key_catalog "RSA2048").1 (by decide),
   (generate_private_key_catalog "BOGUS").2.1 (by decide)⟩

/-- C6: every catalog identifier matches the RSA or the EC family — so the
claim's situation (an identifier passing the catalog check while matching
neither family) never arises — and `generate_private_key` never takes the
silent fall-through: it returns `.ok none` on no input whatsoever. -/
theorem generate_private_key_no_silent_none (kt : String) :
    (kt ∈ CERTIFICATE_KEY_TYPES →
      hasSub kt "RSA" = true ∨ hasSub kt "ECC" = true) ∧
    generate_private_key kt ≠ .ok none := by
  constructor
  · intro hmem
    fin_cases hmem <;> decide
  · by_cases hmem : kt ∈ CERTIFICATE_KEY_TYPES
    · fin_cases hmem <;> decide
    · unfold generate_private_key
      rw [if_neg hmem]
      simp

/-- Witness for C6: instantiated at the catalog member "ECCSECT571R2". -/
theorem generate_private_key_no_silent_none_witness :
    (hasSub "ECCSECT571R2" "RSA" = true ∨ hasSub "ECCSECT571R2" "ECC" = true) ∧
    generate_private_key "ECCSECT571R2" ≠ .ok none :=
  ⟨(generate_private_key_no_silent_none "ECCSECT571R2").1 (by decide),
   (generate_private_key_no_silent_none "ECCSECT571R2").2⟩

end Lemur

namespace Lemur

/-- C7: when every candidate record parses, the scan returns exactly the
candidates whose parsed certificate has the same SHA-256 fingerprint as
the given certificate, in input order (`List.filter` preserves order and
subsequence-hood); in particular an empty or matchless candidate list
yields the empty result, not an error. -/
theorem find_matching_certificates_by_hash_filter (cert : Certificate)
    (l : List CertRecord) (hparse : ∀ c ∈ l, parsesOk c = true) :
    find_matching_certificates_by_hash cert l =
      .ok (l.filter (matchesHash cert)) := by
  induction l with
  | nil => rfl
  | cons c rest ih =>
    have hc := hparse c (List.mem_cons_self c rest)
    have hrest : ∀ x ∈ rest, parsesOk x = true :=
      fun x hx => hparse x (List.mem_cons_of_mem c hx)
    unfold parsesOk at hc
    cases hp : parse_certificate c.body with
    | error e => rw [hp] at hc; simp at hc
    | ok pc =>
      unfold find_matching_certificates_by_hash
      rw [hp, ih hrest]
      by_cases hfp : (pc.fingerprint .SHA256 == cert.fingerprint .SHA256) = true
      · simp [List.filter_cons, matchesHash, hp, hfp]
      · simp [List.filter_cons, matchesHash, hp, hfp]

/-- Witness for C7: a two-candidate list in which only the first matches
`certA`; the scan returns exactly that first record. -/
theorem find_matching_certificates_by_hash_filter_witness :
    find_matching_certificates_by_hash certA [recGood, recOther] =
      .ok ([recGood, recOther].filter (matchesHash certA)) ∧
    [recGood, recOther].filter (matchesHash certA) = [recGood] :=
  ⟨find_matching_certificates_by_hash_filter certA [recGood, recOther]
      (by decide),
   by decide⟩

/-- Counterexample to C8: on the concrete list `[recBad, recGood]` the scan
does not continue past the malformed record — it returns the parse error —
even though the remaining candidate `recGood` matches (scanning `[recGood]`
alone returns it). -/
theorem find_matching_abort_counterexample :
    find_matching_certificates_by_hash certA [recBad, recGood] =
      .error "Unable to load PEM file 3" ∧
    matchesHash certA recGood = true ∧
    find_matching_certificates_by_hash certA [recGood] = .ok [recGood] :=
  ⟨rfl, rfl, rfl⟩

/-- C8 as amended: a parse failure on any individual candidate aborts the
whole scan — once the candidates before it all parse, the scan propagates
that candidate's parse error and returns no matches at all. -/
theorem find_matching_certificates_by_hash_abort (cert : Certificate)
    (pre : List CertRecord) (bad : CertRecord) (post : List CertRecord)
    (msg : String) (hpre : ∀ c ∈ pre, parsesOk c = true)
    (hbad : parse_certificate bad.body = .error msg) :
    find_matching_certificates_by_hash cert (pre ++ bad :: post) =
      .error msg := by
  induction pre with
  | nil =>
    simp only [List.nil_append]
    unfold find_matching_certificates_by_hash
    rw [hbad]
  | cons c rest ih =>
    have hc := hpre c (List.mem_cons_self c rest)
    have hrest : ∀ x ∈ rest, parsesOk x = true :=
      fun x hx => hpre x (List.mem_cons_of_mem c hx)
    unfold parsesOk at hc
    cases hp : parse_certificate c.body with
    | error e => rw [hp] at hc; simp at hc
    | ok pc =>
      simp only [List.cons_append]
      unfold find_matching_certificates_by_hash
      rw [hp, ih hrest]

/-- Witness for the amended C8: with one well-formed record before the
malformed one, the scan reports the malformed record's parse error. -/
theorem find_matching_certificates_by_hash_abort_witness :
    find_matching_certificates_by_hash certA ([recGood] ++ recBad :: [recOther]) =
      .error "Unable to load PEM file 3" :=
  find_matching_certificates_by_hash_abort certA [recGood] recBad [recOther]
    "Unable to load PEM file 3" (by decide) rfl

/-- Every lowercase hex digit character produced by `hexDigitChar` on a
value below 16 is one of the sixteen lowercase hex characters. -/
theorem hexDigitChar_mem (n : Nat) (h : n < 16) :
    hexDigitChar n ∈ hexLowerChars := by
  interval_cases n <;> decide

/-- Every character of `bytesHex` output is a lowercase hex digit. -/
theorem bytesHex_lower (bytes : List Nat) :
    ∀ ch ∈ (bytesHex bytes).data, ch ∈ hexLowerChars := by
  intro ch hch
  simp only [bytesHex] at hch
  rw [List.mem_flatten] at hch
  rcases hch with ⟨l, hl, hchl⟩
  rw [List.mem_map] at hl
  rcases hl with ⟨b, _, rfl⟩
  simp only [byteHexChars, List.mem_cons, List.not_mem_nil, or_false] at hchl
  rcases hchl with rfl | rfl
  · exact hexDigitChar_mem _ (Nat.mod_lt _ (by omega))
  · exact hexDigitChar_mem _ (Nat.mod_lt _ (by omega))

/-- C9: on a parseable certificate, `get_authority_key` returns the AKI
extension's key identifier as its lowercase-hex string when the extension
is present (with a key identifier), and fails with the
extension-not-found error — returning no string at all — when the
extension is absent. -/
theorem get_authority_key_spec (body : PEMBody) (cert : Certificate)
    (hparse : parse_certificate body = .ok cert) :
    (∀ kid, cert.akiExt = some ⟨some kid⟩ →
      get_authority_key body = .ok (bytesHex kid) ∧
      ∀ ch ∈ (bytesHex kid).data, ch ∈ hexLowerChars) ∧
    (cert.akiExt = none →
      get_authority_key body = .error .extensionNotFound) := by
  constructor
  · intro kid haki
    exact ⟨by simp [get_authority_key, hparse, haki], bytesHex_lower kid⟩
  · intro haki
    simp [get_authority_key, hparse, haki]

/-- Witness for C9: on `certAKI` (key identifier de:ad) the result is the
lowercase string "dead"; on `certA` (no AKI extension) the result is the
extension-not-found error. -/
theorem get_authority_key_spec_witness :
    (get_authority_key (.valid certAKI) = .ok (bytesHex [222, 173]) ∧
      ∀ ch ∈ (bytesHex [222, 173]).data, ch ∈ hexLowerChars) ∧
    bytesHex [222, 173] = "dead" ∧
    get_authority_key (.valid certA) = .error .extensionNotFound :=
  ⟨(get_authority_key_spec (.valid certAKI) certAKI rfl).1 [222, 173] rfl,
   by decide,
   (get_authority_key_spec (.valid certA) certA rfl).2 rfl⟩

/-- C10: on a parseable certificate whose AKI extension is present with a
null key-identifier field, `get_authority_key` fails with the
attribute-access error — a failure kind distinct from both the parse error
and the extension-not-found error of the spec's taxonomy. -/
theorem get_authority_key_null_kid (body : PEMBody) (cert : Certificate)
    (hparse : parse_certificate body = .ok cert)
    (haki : cert.akiExt = some ⟨none⟩) :
    get_authority_key body =
      .error (.attributeError "NoneType object has no attribute hex") ∧
    (∀ m1 m2, UtilError.attributeError m1 ≠ UtilError.parseError m2) ∧
    (∀ m, UtilError.attributeError m ≠ UtilError.extensionNotFound) := by
  refine ⟨?_, ?_, ?_⟩
  · simp [get_authority_key, hparse, haki]
  · intro m1 m2
    simp
  · intro m
    simp

/-- Witness for C10: on `certAKInull` the attribute-access error is
raised. -/
theorem get_authority_key_null_kid_witness :
    get_authority_key (.valid certAKInull) =
      .error (.attributeError "NoneType object has no attribute hex") :=
  (get_authority_key_null_kid (.valid certAKInull) certAKInull rfl rfl).1

end Lemur
